import Mathlib

/-!
# OATdle — verification of the daily-quiz core logic

Shallow embedding of the logic in `src/script.js` of the OATdle repository:
the daily question selector, the session/game state, the statistics tracker,
the answer-submission handler, the reload/restore path, and the admin
add-question handler.

Modelling conventions:
* JS numbers holding counters, ids and millisecond timestamps are `Nat`
  (they are non-negative integers throughout the program).
* The current instant is represented by `diffMs`, the number of milliseconds
  elapsed since local midnight of Jan 0 (Dec 31 of the previous year), which
  is exactly the quantity `now - start` the script computes.  Local time is
  modelled as a fixed-offset timeline (no DST jumps), so local midnight
  boundaries fall at exact multiples of `oneDay` on this axis.
* `toDateString` equality (used by `loadGameState`) is equality of the local
  calendar date; we abstract the calendar as a function `calDay` from a
  millisecond timestamp to its `CalDate` (year, month, day).
* DOM effects are modelled by the data they write: `displayQuestionStem`
  returns the text assigned to the question-stem element.
-/

namespace OATdle

/-- A question record, as loaded from `questions.json` and manipulated by the
admin panel: id, subject, difficulty, stem, the four option texts (keys A–D),
answer letter and explanation. -/
structure Question where
  id : Nat
  subject : String
  difficulty : String
  question : String
  optionA : String
  optionB : String
  optionC : String
  optionD : String
  answer : String
  explanation : String
deriving DecidableEq, Repr

/-- The per-day session state (`gameState` in the script). -/
structure GameState where
  gameFinished : Bool
  lastPlayedTs : Option Nat
  lastPlayedAnswer : Option String
deriving DecidableEq, Repr

/-- The cumulative statistics (`userStats` in the script). -/
structure UserStats where
  gamesPlayed : Nat
  wins : Nat
  currentStreak : Nat
  maxStreak : Nat
deriving DecidableEq, Repr

/-- The initial value of `gameState` (script lines 45–49). -/
def initialGameState : GameState :=
  { gameFinished := false, lastPlayedTs := none, lastPlayedAnswer := none }

/-- The initial value of `userStats` (script lines 50–55). -/
def initialUserStats : UserStats :=
  { gamesPlayed := 0, wins := 0, currentStreak := 0, maxStreak := 0 }

/-- The `oneDay` constant of `getDailyQuestion`: `1000 * 60 * 60 * 24` ms. -/
def oneDay : Nat := 1000 * 60 * 60 * 24

/-- The day-of-year `Math.floor(diff / oneDay)` where `diff = now - start` is the time in ms
since local midnight of Jan 0 of the current year (script lines 116–120). -/
def dayOfYear (diffMs : Nat) : Nat := diffMs / oneDay

/-- The selected index `dayOfYear % questions.length` (script line 121). -/
def questionIndex (diffMs n : Nat) : Nat := dayOfYear diffMs % n

/-- Function `getDailyQuestion` (script lines 114–123): `null` on an empty (or absent)
bank, otherwise the question at index `dayOfYear % questions.length`. -/
def getDailyQuestion (qs : List Question) (diffMs : Nat) : Option Question :=
  if h : qs.length = 0 then none
  else some (qs.get ⟨questionIndex diffMs qs.length,
    Nat.mod_lt _ (Nat.pos_of_ne_zero h)⟩)

/-- The text `displayQuestion` writes into the question-stem element
(script lines 160–169): the fallback message when the question is `null`,
otherwise the question's stem. -/
def displayQuestionStem (q : Option Question) : String :=
  match q with
  | none => "No question available for today."
  | some q => q.question

/-- Function `updateStats` (script lines 231–243): increment `gamesPlayed`; on a
correct answer increment `wins` and `currentStreak`, otherwise zero
`currentStreak`; then raise `maxStreak` to `currentStreak` if exceeded. -/
def updateStats (isCorrect : Bool) (s : UserStats) : UserStats :=
  let s1 : UserStats := { s with gamesPlayed := s.gamesPlayed + 1 }
  let s2 : UserStats :=
    if isCorrect then
      { s1 with wins := s1.wins + 1, currentStreak := s1.currentStreak + 1 }
    else
      { s1 with currentStreak := 0 }
  if s2.currentStreak > s2.maxStreak then { s2 with maxStreak := s2.currentStreak }
  else s2

/-- The combined mutable state touched by `handleAnswerSubmission`. -/
structure AppState where
  gameState : GameState
  userStats : UserStats
deriving DecidableEq, Repr

/-- Function `handleAnswerSubmission` (script lines 185–225): bail out if the game is
already finished; otherwise mark it finished, record the timestamp and the
chosen answer, and update the statistics with whether the chosen answer equals
`currentQuestion.answer`.  `q` is the current question and `nowMs` the value of
`new Date().getTime()`.  The chosen answer is an `Option` because the restore
path passes whatever `lastPlayedAnswer` holds, possibly `null`. -/
def handleAnswerSubmission (q : Question) (nowMs : Nat) (selected : Option String)
    (st : AppState) : AppState :=
  if st.gameState.gameFinished then st
  else
    { gameState :=
        { gameFinished := true
          lastPlayedTs := some nowMs
          lastPlayedAnswer := selected }
      userStats := updateStats (selected == some q.answer) st.userStats }

/-- Function `restoreGameState` (script lines 248–253): if the loaded game state is
finished, clear the flag and re-run `handleAnswerSubmission` on the stored
answer. -/
def restoreGameState (q : Question) (nowMs : Nat) (st : AppState) : AppState :=
  if st.gameState.gameFinished then
    handleAnswerSubmission q nowMs st.gameState.lastPlayedAnswer
      { st with gameState := { st.gameState with gameFinished := false } }
  else st

/-- A local calendar date, the content compared by `toDateString` equality. -/
structure CalDate where
  year : Nat
  month : Nat
  day : Nat
deriving DecidableEq, Repr

/-- Function `loadGameState` (script lines 142–150): adopt the stored state only when
the calendar date of its `lastPlayedTs` equals today's calendar date;
otherwise keep the in-memory state `g`.  `calDay` maps a millisecond timestamp
to its local calendar date (`new Date(ts).toDateString()`); a `null` stored
timestamp denotes the epoch (`new Date(null)`). -/
def loadGameState (calDay : Nat → CalDate) (stored : Option GameState)
    (nowMs : Nat) (g : GameState) : GameState :=
  match stored with
  | none => g
  | some saved =>
      if calDay (saved.lastPlayedTs.getD 0) = calDay nowMs then saved else g

/-- The startup sequence of `init` (script lines 66–80) restricted to the
state it mutates, on a reload after a previous play: `loadStats` adopts the
persisted statistics, `loadGameState` reconciles the persisted session state
with today, and `restoreGameState` replays a finished game. -/
def reloadAfterPlay (q : Question) (calDay : Nat → CalDate)
    (storedStats : UserStats) (storedGame : GameState) (nowMs : Nat) : AppState :=
  let stats := storedStats
  let gs := loadGameState calDay (some storedGame) nowMs initialGameState
  restoreGameState q nowMs { gameState := gs, userStats := stats }

/-- The day-of-year computed by the share-button handler
(script lines 337–341), written out independently of the selector's. -/
def shareDayOfYear (diffMs : Nat) : Nat :=
  diffMs / (1000 * 60 * 60 * 24)

/-- The values read from the add-question form of the admin panel. -/
structure NewQuestionForm where
  subject : String
  difficulty : String
  stem : String
  optionA : String
  optionB : String
  optionC : String
  optionD : String
  answer : String
  explanation : String
deriving DecidableEq, Repr

/-- JS `String.prototype.toUpperCase` modelled character-wise (the answer
letters handled by the program are ASCII). -/
def jsToUpperCase (s : String) : String :=
  ⟨s.data.map Char.toUpper⟩

/-- The `newQuestion` object built by the add-question click handler
(script lines 409–422): id is `Math.max(...ids) + 1` on a non-empty bank and
`1` otherwise; the answer field is uppercased. -/
def mkNewQuestion (qs : List Question) (form : NewQuestionForm) : Question :=
  { id := if qs.length > 0 then (qs.map Question.id).foldl Nat.max 0 + 1 else 1
    subject := form.subject
    difficulty := form.difficulty
    question := form.stem
    optionA := form.optionA
    optionB := form.optionB
    optionC := form.optionC
    optionD := form.optionD
    answer := jsToUpperCase form.answer
    explanation := form.explanation }

/-- The add-question click handler (script lines 408–431) acting on the
question store: push the new question when the stem, the answer and all four
option texts are truthy (non-empty) strings, otherwise leave the store
unchanged (the handler then only alerts). -/
def addQuestionClick (qs : List Question) (form : NewQuestionForm) : List Question :=
  let newQ := mkNewQuestion qs form
  if newQ.question ≠ "" ∧ newQ.answer ≠ "" ∧ newQ.optionA ≠ "" ∧
      newQ.optionB ≠ "" ∧ newQ.optionC ≠ "" ∧ newQ.optionD ≠ "" then
    qs ++ [newQ]
  else qs

/-- A sample question used to instantiate witnesses. -/
def sampleQuestion : Question :=
  { id := 5, subject := "Biology", difficulty := "Medium"
    question := "Which base pairs with adenine in DNA?"
    optionA := "Guanine", optionB := "Thymine", optionC := "Cytosine", optionD := "Uracil"
    answer := "B", explanation := "Adenine pairs with thymine." }

/-- A toy calendar on the fixed-offset timeline, used to instantiate
witnesses: every timestamp within the same `oneDay`-block shares a date. -/
def sampleCalDay (ts : Nat) : CalDate :=
  { year := 2024, month := 1, day := ts / oneDay }

/-- The application state right after the first (and only) answer submission
of the day: the player answers "B" at `ts = 1000` of day 0 starting from the
default state. -/
def afterFirstPlay : AppState :=
  handleAnswerSubmission sampleQuestion 1000 (some "B")
    { gameState := initialGameState, userStats := initialUserStats }

/-- The application state after reloading the page later the same day
(`ts = 2000`): `loadStats`/`loadGameState` read back the state persisted after
`afterFirstPlay`, and `restoreGameState` replays the finished game. -/
def afterReload : AppState :=
  reloadAfterPlay sampleQuestion sampleCalDay
    afterFirstPlay.userStats afterFirstPlay.gameState 2000

/-- A finished-game application state used to instantiate witnesses. -/
def finishedState : AppState :=
  { gameState := { gameFinished := true, lastPlayedTs := some 1000, lastPlayedAnswer := some "B" }
    userStats := { gamesPlayed := 1, wins := 1, currentStreak := 1, maxStreak := 1 } }

/-- An add-question form whose every checked field is non-empty but whose
answer text "z" uppercases to "Z", which is not one of the letters A–D. -/
def invalidLetterForm : NewQuestionForm :=
  { subject := "Chemistry", difficulty := "Easy", stem := "Pick one"
    optionA := "w", optionB := "x", optionC := "y", optionD := "z"
    answer := "z", explanation := "" }

/-- A fully and validly filled add-question form. -/
def validForm : NewQuestionForm :=
  { subject := "Physics", difficulty := "Hard", stem := "Unit of force?"
    optionA := "Newton", optionB := "Joule", optionC := "Watt", optionD := "Pascal"
    answer := "a", explanation := "Force is measured in newtons." }

/-- On the fixed-offset timeline an instant `d` full days plus `t` ms past
Jan-0 midnight has day-of-year `d`. -/
theorem dayOfYear_decompose (d t : Nat) (ht : t < oneDay) :
    dayOfYear (d * oneDay + t) = d := by
  unfold dayOfYear
  rw [Nat.mul_comm d oneDay, Nat.mul_add_div (by decide : 0 < oneDay),
    Nat.div_eq_of_lt ht]
  exact Nat.add_zero d

/-- The seed of `foldl max` is bounded by the fold's result. -/
theorem foldl_max_base (l : List Nat) (a : Nat) : a ≤ l.foldl Nat.max a := by
  induction l generalizing a with
  | nil => exact Nat.le_refl a
  | cons y ys ih => exact Nat.le_trans (Nat.le_max_left a y) (ih (Nat.max a y))

/-- Every member of a list of naturals is bounded by `foldl max` over it. -/
theorem le_foldl_max (l : List Nat) (a : Nat) : ∀ x ∈ l, x ≤ l.foldl Nat.max a := by
  induction l generalizing a with
  | nil => intro x hx; cases hx
  | cons y ys ih =>
      intro x hx
      rcases List.mem_cons.mp hx with rfl | hx
      · exact Nat.le_trans (Nat.le_max_right a x) (foldl_max_base ys (Nat.max a x))
      · exact ih (Nat.max a y) x hx

/-- Function `getDailyQuestion` depends on the instant only through its day-of-year. -/
theorem getDailyQuestion_congr (qs : List Question) {d₁ d₂ : Nat}
    (h : dayOfYear d₁ = dayOfYear d₂) :
    getDailyQuestion qs d₁ = getDailyQuestion qs d₂ := by
  simp only [getDailyQuestion, questionIndex, h]

/-- C2: for every question bank of positive length `N`, two calls of
`getDailyQuestion` at two instants falling on the same local calendar day
(day `d` of the year, at offsets `t₁` and `t₂` within the day) return the
same question. -/
theorem c2_same_day_same_question (qs : List Question) (d t₁ t₂ : Nat)
    (h₁ : t₁ < oneDay) (h₂ : t₂ < oneDay) (hN : 0 < qs.length) :
    getDailyQuestion qs (d * oneDay + t₁) = getDailyQuestion qs (d * oneDay + t₂) :=
  getDailyQuestion_congr qs
    ((dayOfYear_decompose d t₁ h₁).trans (dayOfYear_decompose d t₂ h₂).symm)

/-- Witness for C2 at a concrete bank and two concrete instants of day 3. -/
theorem c2_same_day_same_question_witness :
    (5 < oneDay ∧ 7 < oneDay ∧ 0 < ([sampleQuestion] : List Question).length) ∧
    getDailyQuestion [sampleQuestion] (3 * oneDay + 5) =
      getDailyQuestion [sampleQuestion] (3 * oneDay + 7) :=
  ⟨⟨by decide, by decide, by decide⟩,
    c2_same_day_same_question [sampleQuestion] 3 5 7 (by decide) (by decide) (by decide)⟩

/-- C3: at an instant `t` ms past local midnight of day `d` of the year, the
code's `dayOfYear` equals the spec's
`floor((today_midnight − Jan0_midnight) / 86400000)`, the selected index is
`dayOfYear mod N`, and that index lies in `[0, N)`. -/
theorem c3_dayOfYear_formula (qs : List Question) (d t : Nat)
    (ht : t < oneDay) (hN : 0 < qs.length) :
    dayOfYear (d * oneDay + t) = d * oneDay / 86400000 ∧
    questionIndex (d * oneDay + t) qs.length < qs.length ∧
    getDailyQuestion qs (d * oneDay + t) =
      some (qs.get ⟨dayOfYear (d * oneDay + t) % qs.length, Nat.mod_lt _ hN⟩) := by
  refine ⟨?_, Nat.mod_lt _ hN, ?_⟩
  · rw [dayOfYear_decompose d t ht]
    simp only [oneDay]
    omega
  · simp only [getDailyQuestion, questionIndex]
    rw [dif_neg (Nat.pos_iff_ne_zero.mp hN)]

/-- Witness for C3 at a concrete instant of day 3 and a one-question bank. -/
theorem c3_dayOfYear_formula_witness :
    (5 < oneDay ∧ 0 < ([sampleQuestion] : List Question).length) ∧
    questionIndex (3 * oneDay + 5) ([sampleQuestion] : List Question).length <
      ([sampleQuestion] : List Question).length :=
  ⟨⟨by decide, by decide⟩,
    (c3_dayOfYear_formula [sampleQuestion] 3 5 (by decide) (by decide)).2.1⟩

/-- C8: on an empty question bank `getDailyQuestion` returns `null` rather
than failing, and `displayQuestion` then writes the fallback message into the
question stem. -/
theorem c8_empty_bank_fallback :
    (∀ diffMs, getDailyQuestion [] diffMs = none) ∧
    displayQuestionStem none = "No question available for today." :=
  ⟨fun _ => rfl, rfl⟩

/-- C9: once the game is marked finished, `handleAnswerSubmission` returns
immediately, leaving the whole application state — session state and
statistics — unchanged. -/
theorem c9_submission_noop_after_finish (q : Question) (nowMs : Nat)
    (sel : Option String) (st : AppState)
    (h : st.gameState.gameFinished = true) :
    handleAnswerSubmission q nowMs sel st = st := by
  simp only [handleAnswerSubmission, h, if_true]

/-- Witness for C9 at a concrete finished state. -/
theorem c9_submission_noop_after_finish_witness :
    finishedState.gameState.gameFinished = true ∧
    handleAnswerSubmission sampleQuestion 2000 (some "A") finishedState = finishedState :=
  ⟨rfl, c9_submission_noop_after_finish sampleQuestion 2000 (some "A") finishedState rfl⟩

/-- C10: the day number the share handler embeds in the summary equals the
selector's `dayOfYear` at the same instant, and the selector's index is that
shared number mod the bank size. -/
theorem c10_share_day_matches_selector :
    ∀ diffMs, shareDayOfYear diffMs = dayOfYear diffMs ∧
      ∀ n, questionIndex diffMs n = shareDayOfYear diffMs % n :=
  fun _ => ⟨rfl, fun _ => rfl⟩

/-- C4: a statistics update increments `gamesPlayed` by one; a correct answer
increments `wins` and `currentStreak` by one while an incorrect one zeroes
`currentStreak`; afterwards `maxStreak` is raised to `currentStreak` exactly
when exceeded; and a first submission feeds `updateStats` the comparison of
the chosen answer with the question's recorded answer. -/
theorem c4_updateStats_effect :
    (∀ (s : UserStats) (b : Bool),
      (updateStats b s).gamesPlayed = s.gamesPlayed + 1 ∧
      (updateStats b s).wins = (if b then s.wins + 1 else s.wins) ∧
      (updateStats b s).currentStreak = (if b then s.currentStreak + 1 else 0) ∧
      (updateStats b s).maxStreak =
        (if s.maxStreak < (updateStats b s).currentStreak
         then (updateStats b s).currentStreak else s.maxStreak)) ∧
    (∀ (q : Question) (nowMs : Nat) (sel : Option String) (st : AppState),
      st.gameState.gameFinished = false →
      (handleAnswerSubmission q nowMs sel st).userStats =
        updateStats (sel == some q.answer) st.userStats) := by
  constructor
  · intro s b
    cases b <;> simp only [updateStats, Bool.false_eq_true, if_false, if_true] <;>
      refine ⟨?_, ?_, ?_, ?_⟩ <;> split <;> simp_all <;> omega
  · intro q nowMs sel st h
    simp only [handleAnswerSubmission, h, Bool.false_eq_true, if_false]

/-- Witness for C4 at the initial state and a concrete submission. -/
theorem c4_updateStats_effect_witness :
    (⟨initialGameState, initialUserStats⟩ : AppState).gameState.gameFinished = false ∧
    (handleAnswerSubmission sampleQuestion 1000 (some "B")
        ⟨initialGameState, initialUserStats⟩).userStats =
      updateStats ((some "B" : Option String) == some sampleQuestion.answer)
        initialUserStats :=
  ⟨rfl, c4_updateStats_effect.2 sampleQuestion 1000 (some "B")
    ⟨initialGameState, initialUserStats⟩ rfl⟩

/-- A single statistics update preserves `wins ≤ gamesPlayed` and
`currentStreak ≤ maxStreak`. -/
theorem updateStats_inv_step (s : UserStats) (b : Bool)
    (hw : s.wins ≤ s.gamesPlayed) (hm : s.currentStreak ≤ s.maxStreak) :
    (updateStats b s).wins ≤ (updateStats b s).gamesPlayed ∧
    (updateStats b s).currentStreak ≤ (updateStats b s).maxStreak := by
  cases b <;> simp only [updateStats, Bool.false_eq_true, if_false, if_true] <;>
    constructor <;> split <;> simp_all <;> omega

/-- Any fold of statistics updates from an invariant-satisfying state keeps
the invariant. -/
theorem updateStats_inv_fold (l : List Bool) :
    ∀ s : UserStats, s.wins ≤ s.gamesPlayed → s.currentStreak ≤ s.maxStreak →
      (l.foldl (fun s b => updateStats b s) s).wins ≤
        (l.foldl (fun s b => updateStats b s) s).gamesPlayed ∧
      (l.foldl (fun s b => updateStats b s) s).currentStreak ≤
        (l.foldl (fun s b => updateStats b s) s).maxStreak := by
  induction l with
  | nil => intro s hw hm; exact ⟨hw, hm⟩
  | cons b bs ih =>
      intro s hw hm
      have h := updateStats_inv_step s b hw hm
      exact ih (updateStats b s) h.1 h.2

/-- C5: `updateStats` preserves `wins ≤ gamesPlayed` and
`currentStreak ≤ maxStreak` (the `≥ 0` bounds hold by the `Nat` typing), so
after any sequence of submissions starting from the all-zero defaults both
inequalities still hold. -/
theorem c5_stats_invariant :
    (∀ (s : UserStats) (b : Bool),
      s.wins ≤ s.gamesPlayed → s.currentStreak ≤ s.maxStreak →
      (updateStats b s).wins ≤ (updateStats b s).gamesPlayed ∧
      (updateStats b s).currentStreak ≤ (updateStats b s).maxStreak) ∧
    (∀ l : List Bool,
      (l.foldl (fun s b => updateStats b s) initialUserStats).wins ≤
        (l.foldl (fun s b => updateStats b s) initialUserStats).gamesPlayed ∧
      (l.foldl (fun s b => updateStats b s) initialUserStats).currentStreak ≤
        (l.foldl (fun s b => updateStats b s) initialUserStats).maxStreak) :=
  ⟨updateStats_inv_step,
    fun l => updateStats_inv_fold l initialUserStats (Nat.le_refl 0) (Nat.le_refl 0)⟩

/-- Witness for C5 at a concrete statistics state. -/
theorem c5_stats_invariant_witness :
    ((⟨3, 2, 1, 2⟩ : UserStats).wins ≤ (⟨3, 2, 1, 2⟩ : UserStats).gamesPlayed ∧
     (⟨3, 2, 1, 2⟩ : UserStats).currentStreak ≤ (⟨3, 2, 1, 2⟩ : UserStats).maxStreak) ∧
    (updateStats false ⟨3, 2, 1, 2⟩).wins ≤ (updateStats false ⟨3, 2, 1, 2⟩).gamesPlayed ∧
    (updateStats false ⟨3, 2, 1, 2⟩).currentStreak ≤
      (updateStats false ⟨3, 2, 1, 2⟩).maxStreak :=
  ⟨⟨by decide, by decide⟩,
    c5_stats_invariant.1 ⟨3, 2, 1, 2⟩ false (by decide) (by decide)⟩

/-- C7: at startup, a persisted session state whose `lastPlayedTs` falls on a
calendar date other than today's is not adopted — the in-memory state stays
the default "not completed" — while a same-date state is adopted verbatim. -/
theorem c7_loadGameState_reconciliation (calDay : Nat → CalDate)
    (saved : GameState) (nowMs : Nat) :
    (calDay (saved.lastPlayedTs.getD 0) ≠ calDay nowMs →
      loadGameState calDay (some saved) nowMs initialGameState = initialGameState ∧
      (loadGameState calDay (some saved) nowMs initialGameState).gameFinished = false) ∧
    (calDay (saved.lastPlayedTs.getD 0) = calDay nowMs →
      loadGameState calDay (some saved) nowMs initialGameState = saved) := by
  constructor
  · intro h
    have hres : loadGameState calDay (some saved) nowMs initialGameState =
        initialGameState := by
      simp only [loadGameState, if_neg h]
    exact ⟨hres, by rw [hres]; rfl⟩
  · intro h
    simp only [loadGameState, if_pos h]

/-- Witness for C7: a state stored at the epoch is stale on day 5 and is not
adopted. -/
theorem c7_loadGameState_reconciliation_witness :
    sampleCalDay ((⟨true, some 0, some "B"⟩ : GameState).lastPlayedTs.getD 0) ≠
      sampleCalDay (5 * oneDay) ∧
    loadGameState sampleCalDay (some ⟨true, some 0, some "B"⟩) (5 * oneDay)
      initialGameState = initialGameState :=
  ⟨by decide,
    ((c7_loadGameState_reconciliation sampleCalDay ⟨true, some 0, some "B"⟩
      (5 * oneDay)).1 (by decide)).1⟩

/-- C1: REFUTED by the code — after one submission on day 0
(`gamesPlayed = 1`), reloading the page later the same day runs
`restoreGameState`, which clears `gameFinished` and re-invokes
`handleAnswerSubmission`, whose unconditional `updateStats` call increments
the statistics again: `gamesPlayed` becomes 2 and, the answer being correct,
`wins` and `currentStreak` also grow, contradicting the required idempotence
of statistics across same-day reloads. -/
theorem c1_reload_increments_stats :
    afterFirstPlay.userStats.gamesPlayed = 1 ∧
    afterReload.userStats.gamesPlayed = 2 ∧
    afterReload.userStats.wins = 2 ∧
    afterReload.userStats.currentStreak = 2 := by
  decide

/-- C6: REFUTED as stated — a form whose answer text "z" is non-empty but not
a valid answer letter is nevertheless accepted: the handler appends the new
question (with answer uppercased to "Z", id `max + 1 = 6`) to the store. -/
theorem c6_invalid_letter_accepted :
    addQuestionClick [sampleQuestion] invalidLetterForm =
      [sampleQuestion, mkNewQuestion [sampleQuestion] invalidLetterForm] ∧
    (mkNewQuestion [sampleQuestion] invalidLetterForm).answer = "Z" ∧
    "Z" ∉ (["A", "B", "C", "D"] : List String) ∧
    (mkNewQuestion [sampleQuestion] invalidLetterForm).id = 6 := by
  decide

/-- C6 (amended): the add-question handler assigns the new question the id
`max existing id + 1` (so larger than every existing id; `1` on an empty
store) and accepts exactly when the stem, all four option texts and the
(uppercased) answer are non-empty — with no check that the answer is one of
the letters A–D; otherwise it only alerts and leaves the store unchanged. -/
theorem c6_addQuestionClick_spec (qs : List Question) (form : NewQuestionForm) :
    (form.stem ≠ "" → jsToUpperCase form.answer ≠ "" → form.optionA ≠ "" →
      form.optionB ≠ "" → form.optionC ≠ "" → form.optionD ≠ "" →
      addQuestionClick qs form = qs ++ [mkNewQuestion qs form] ∧
      (∀ q ∈ qs, q.id < (mkNewQuestion qs form).id) ∧
      (qs = [] → (mkNewQuestion qs form).id = 1)) ∧
    ((form.stem = "" ∨ jsToUpperCase form.answer = "" ∨ form.optionA = "" ∨
      form.optionB = "" ∨ form.optionC = "" ∨ form.optionD = "") →
      addQuestionClick qs form = qs) := by
  constructor
  · intro h1 h2 h3 h4 h5 h6
    refine ⟨?_, ?_, ?_⟩
    · simp only [addQuestionClick]
      rw [if_pos ⟨h1, h2, h3, h4, h5, h6⟩]
    · intro q hq
      simp only [mkNewQuestion]
      have hlen : qs.length > 0 := List.length_pos.mpr (List.ne_nil_of_mem hq)
      rw [if_pos hlen]
      have : q.id ≤ (qs.map Question.id).foldl Nat.max 0 :=
        le_foldl_max (qs.map Question.id) 0 q.id (List.mem_map_of_mem Question.id hq)
      omega
    · intro hqs
      subst hqs
      rfl
  · intro h
    have hc : ¬((mkNewQuestion qs form).question ≠ "" ∧
        (mkNewQuestion qs form).answer ≠ "" ∧
        (mkNewQuestion qs form).optionA ≠ "" ∧
        (mkNewQuestion qs form).optionB ≠ "" ∧
        (mkNewQuestion qs form).optionC ≠ "" ∧
        (mkNewQuestion qs form).optionD ≠ "") := by
      intro hcon
      rcases h with h | h | h | h | h | h
      · exact hcon.1 h
      · exact hcon.2.1 h
      · exact hcon.2.2.1 h
      · exact hcon.2.2.2.1 h
      · exact hcon.2.2.2.2.1 h
      · exact hcon.2.2.2.2.2 h
    simp only [addQuestionClick]
    rw [if_neg hc]

/-- Witness for C6 (amended): a validly filled form is accepted and appended
to a one-question store. -/
theorem c6_addQuestionClick_spec_witness :
    validForm.stem ≠ "" ∧
    addQuestionClick [sampleQuestion] validForm =
      [sampleQuestion] ++ [mkNewQuestion [sampleQuestion] validForm] :=
  ⟨by decide,
    ((c6_addQuestionClick_spec [sampleQuestion] validForm).1 (by decide) (by decide)
      (by decide) (by decide) (by decide) (by decide)).1⟩

end OATdle
